import Mathlib

/-!
# Verification of the Order promotion bot (`master.py`)

Shallow embedding of the promotion workflow of `master.py`: a Discord bot
that, on an admin command, removes a "source" role from members who joined
longer than a threshold ago, grants them a "target" role, and posts a
congratulatory message.

Modelling decisions, all taken from the source:

* Timezone-aware datetimes are modelled as `AwareTime`: an absolute instant
  (integer seconds since the epoch) paired with the zone it is displayed in.
  `astimezone` changes only the zone component, as `datetime.astimezone`
  preserves the instant; subtraction (`total_seconds`) uses the instants.
* Side effects (role mutations, channel messages, replies to the invoker,
  log lines) are recorded as an explicit `Event` trace.
* A coroutine that either returns or raises `discord.Forbidden` is modelled
  as returning a trace together with a `PyResult`.
* `asyncio.gather(*tasks)` without `return_exceptions` schedules every task
  and does not cancel siblings when one raises: every task's effects occur,
  and the awaiting coroutine receives the first raised exception.  `gather`
  below concatenates all task traces and returns the first error, if any.
* `datetime.datetime.now` is called inside `check_join_time`, i.e. once per
  candidate; the model threads a `clock : Nat → Int` giving the instant
  returned by the i-th `now()` call of the invocation.
-/

abbrev RoleId := Nat
abbrev ChannelId := Nat

/-- A timezone-aware datetime: an absolute instant (seconds since epoch)
together with the timezone it is rendered in. -/
structure AwareTime where
  instant : Int
  zone : Nat
deriving DecidableEq

/-- `datetime.astimezone(tz)`: same instant, rendered in another zone. -/
def AwareTime.astimezone (t : AwareTime) (tz : Nat) : AwareTime :=
  { instant := t.instant, zone := tz }

/-- `datetime.datetime.now(tz)`: the current instant, in zone `tz`. -/
def datetime_now (currentInstant : Int) (tz : Nat) : AwareTime :=
  { instant := currentInstant, zone := tz }

/-- `(a - b).total_seconds()` for aware datetimes: difference of instants. -/
def AwareTime.sub_total_seconds (a b : AwareTime) : Int :=
  a.instant - b.instant

/-- A guild member: id, mention handle, aware join time, current roles. -/
structure Member where
  id : Nat
  mention : String
  joined_at : AwareTime
  roles : List RoleId
deriving DecidableEq

/-- A guild: the roles that exist in it and its member directory. -/
structure Guild where
  roles : List RoleId
  members : List Member
deriving DecidableEq

/-- `guild.get_role(rid)`: `None` when the role does not exist in the guild. -/
def Guild.get_role (g : Guild) (rid : RoleId) : Option RoleId :=
  if rid ∈ g.roles then some rid else none

/-- The members of `g` currently holding role `rid` (`role.members`). -/
def Guild.role_members (g : Guild) (rid : RoleId) : List Member :=
  g.members.filter (fun m => rid ∈ m.roles)

/-- The bot's channel directory (`bot.get_channel`). -/
structure BotClient where
  channels : List ChannelId
deriving DecidableEq

def BotClient.get_channel (b : BotClient) (cid : ChannelId) : Option ChannelId :=
  if cid ∈ b.channels then some cid else none

/-- The configuration read from `config.json` (module-level constants
`ADMIN_ROLE_ID`, `OLD_ROLE_ID`, `NEW_ROLE_ID`, `CHANNEL_ID`,
`JOIN_TIME_THRESHOLD`, `TIMEZONE`). -/
structure Config where
  ADMIN_ROLE_ID : RoleId
  OLD_ROLE_ID : RoleId
  NEW_ROLE_ID : RoleId
  CHANNEL_ID : ChannelId
  JOIN_TIME_THRESHOLD : Int
  TIMEZONE : Nat
deriving DecidableEq

/-- The command context `ctx`: invoking guild and author. -/
structure Context where
  guild : Guild
  author : Member
deriving DecidableEq

/-- Which API calls the bot has permission for; a `false` entry means the
Discord API raises `discord.Forbidden` on that call. -/
structure Perms where
  canRemove : Nat → RoleId → Bool
  canAdd : Nat → RoleId → Bool
  canSend : ChannelId → Bool

/-- The one exception kind the promotion path handles (`discord.Forbidden`). -/
inductive PyExc where
  | Forbidden
deriving DecidableEq

/-- Outcome of a coroutine: returned normally, or raised an exception. -/
inductive PyResult where
  | ok : PyResult
  | raised : PyExc → PyResult
deriving DecidableEq

/-- One observable side effect of the program. -/
inductive Event where
  | removeRole (memberId : Nat) (role : RoleId)
  | addRole (memberId : Nat) (role : RoleId)
  | channelMsg (chan : ChannelId) (msg : String)
  | ctxReply (msg : String)
  | logError (msg : String)
deriving DecidableEq

/-- `get_members_with_old_role(guild)`:
`old_role.members if old_role else []`. -/
def get_members_with_old_role (cfg : Config) (g : Guild) : List Member :=
  match g.get_role cfg.OLD_ROLE_ID with
  | some old_role => g.role_members old_role
  | none => []

/-- The congratulatory message sent to a promoted member. -/
def congrats_message (m : Member) : String :=
  m.mention ++ ", поздравляю с новым титулом! Теперь ты житель. Живи во имя Рэйвенхолда!"

/-- `change_role_and_send_message(member, old_role, new_role, channel)`:
remove the old role, add the new role, send the congratulation.  A
`discord.Forbidden` from any step is caught, logged, and re-raised. -/
def change_role_and_send_message (perms : Perms) (member : Member)
    (old_role new_role : RoleId) (channel : ChannelId) :
    List Event × PyResult :=
  if perms.canRemove member.id old_role then
    if perms.canAdd member.id new_role then
      if perms.canSend channel then
        ([Event.removeRole member.id old_role,
          Event.addRole member.id new_role,
          Event.channelMsg channel (congrats_message member)],
         PyResult.ok)
      else
        ([Event.removeRole member.id old_role,
          Event.addRole member.id new_role,
          Event.logError "Error changing role and sending message: Forbidden"],
         PyResult.raised PyExc.Forbidden)
    else
      ([Event.removeRole member.id old_role,
        Event.logError "Error changing role and sending message: Forbidden"],
       PyResult.raised PyExc.Forbidden)
  else
    ([Event.logError "Error changing role and sending message: Forbidden"],
     PyResult.raised PyExc.Forbidden)

/-- `check_admin_role(ctx)`:
`admin_role in ctx.author.roles if admin_role else False`. -/
def check_admin_role (cfg : Config) (ctx : Context) : Bool :=
  match ctx.guild.get_role cfg.ADMIN_ROLE_ID with
  | some admin_role => admin_role ∈ ctx.author.roles
  | none => false

/-- `check_join_time(member, threshold)`: converts the member's join time
and the current time into the configured timezone and compares the
difference in seconds strictly against the threshold.  `currentInstant` is
the instant `datetime.datetime.now` returns during this call. -/
def check_join_time (cfg : Config) (currentInstant : Int)
    (member : Member) (threshold : Int) : Bool :=
  let join_time := member.joined_at.astimezone cfg.TIMEZONE
  let current_time := datetime_now currentInstant cfg.TIMEZONE
  current_time.sub_total_seconds join_time > threshold

/-- `check_roles_and_channel(ctx)`: true iff source role, target role and
announcement channel all resolve. -/
def check_roles_and_channel (cfg : Config) (bot : BotClient) (ctx : Context) : Bool :=
  let old_role := ctx.guild.get_role cfg.OLD_ROLE_ID
  let new_role := ctx.guild.get_role cfg.NEW_ROLE_ID
  let channel := bot.get_channel cfg.CHANNEL_ID
  old_role.isSome && new_role.isSome && channel.isSome

/-- The members kept by the list comprehension
`[... for member in members if check_join_time(member, threshold)]`:
the i-th `check_join_time` call observes instant `clock i`, because `now`
is evaluated inside `check_join_time`, once per candidate. -/
def eligible_members (cfg : Config) (clock : Nat → Int) :
    List Member → Int → Nat → List Member
  | [], _, _ => []
  | m :: ms, threshold, i =>
      if check_join_time cfg (clock i) m threshold then
        m :: eligible_members cfg clock ms threshold (i + 1)
      else
        eligible_members cfg clock ms threshold (i + 1)

/-- `asyncio.gather(*tasks)` with the default `return_exceptions=False`:
every scheduled task runs to completion (a sibling's exception does not
cancel it), so all traces occur; the awaiting coroutine receives the first
exception if any task raised, else a normal return. -/
def gather (results : List (List Event × PyResult)) : List Event × PyResult :=
  ((results.map Prod.fst).flatten,
   match results.findSome?
       (fun r => match r.2 with
         | PyResult.raised e => some e
         | PyResult.ok => none) with
   | some e => PyResult.raised e
   | none => PyResult.ok)

/-- `handle_command(ctx, threshold)`: the promotion orchestrator.  The
final `match` on the resolved role/channel options cannot reach its last
arm: `check_roles_and_channel` has already established all three resolve. -/
def handle_command (cfg : Config) (bot : BotClient) (perms : Perms)
    (clock : Nat → Int) (ctx : Context) (threshold : Int) :
    List Event × PyResult :=
  if !(check_admin_role cfg ctx) then
    ([Event.ctxReply "У вас нет прав на выполнение этой команды."], PyResult.ok)
  else if !(check_roles_and_channel cfg bot ctx) then
    ([Event.logError "Role or channel not found.",
      Event.ctxReply "Role or channel not found."], PyResult.ok)
  else
    match ctx.guild.get_role cfg.OLD_ROLE_ID,
          ctx.guild.get_role cfg.NEW_ROLE_ID,
          bot.get_channel cfg.CHANNEL_ID with
    | some old_role, some new_role, some channel =>
        let members := get_members_with_old_role cfg ctx.guild
        let elig := eligible_members cfg clock members threshold 0
        if elig.isEmpty then
          ([Event.ctxReply "Достойных кандидатов не нашлось, милорд."],
           PyResult.ok)
        else
          gather (elig.map
            (fun m => change_role_and_send_message perms m old_role new_role channel))
    | _, _, _ => ([], PyResult.ok)

/-- The `C` command entry point: delegates to `handle_command`, with the
optional threshold argument defaulting to `JOIN_TIME_THRESHOLD`. -/
def C_command (cfg : Config) (bot : BotClient) (perms : Perms) (clock : Nat → Int)
    (ctx : Context) (threshold : Option Int) : List Event × PyResult :=
  handle_command cfg bot perms clock ctx (threshold.getD cfg.JOIN_TIME_THRESHOLD)

/-- The `c` command entry point: delegates to `handle_command`, with the
optional threshold argument defaulting to `JOIN_TIME_THRESHOLD`. -/
def c_command (cfg : Config) (bot : BotClient) (perms : Perms) (clock : Nat → Int)
    (ctx : Context) (threshold : Option Int) : List Event × PyResult :=
  handle_command cfg bot perms clock ctx (threshold.getD cfg.JOIN_TIME_THRESHOLD)

/-- Event classifiers used to state trace properties. -/
def Event.isMutation : Event → Bool
  | Event.removeRole _ _ => true
  | Event.addRole _ _ => true
  | _ => false

def Event.isChannelMsg : Event → Bool
  | Event.channelMsg _ _ => true
  | _ => false

def Event.isReply : Event → Bool
  | Event.ctxReply _ => true
  | _ => false

def Event.isAdd : Event → Bool
  | Event.addRole _ _ => true
  | _ => false

/-! ## Concrete fixtures used by witnesses and counterexamples -/

/-- Permissions granting every API call. -/
def permsAll : Perms :=
  { canRemove := fun _ _ => true, canAdd := fun _ _ => true, canSend := fun _ => true }

/-- Permissions where role removal is forbidden for every member. -/
def permsNoRemove : Perms :=
  { canRemove := fun _ _ => false, canAdd := fun _ _ => true, canSend := fun _ => true }

/-- Permissions where member 1's role removal is forbidden and everything
else is allowed. -/
def permsDeny1 : Perms :=
  { canRemove := fun mid _ => mid != 1, canAdd := fun _ _ => true,
    canSend := fun _ => true }

/-- The configuration used by the concrete scenarios: admin role 1, source
role 2, target role 3, channel 4, default threshold 7 days. -/
def cfgM : Config :=
  { ADMIN_ROLE_ID := 1, OLD_ROLE_ID := 2, NEW_ROLE_ID := 3, CHANNEL_ID := 4,
    JOIN_TIME_THRESHOLD := 604800, TIMEZONE := 0 }

def botM : BotClient := { channels := [4] }

/-- The admin who invokes the command in the concrete scenarios. -/
def adminM : Member :=
  { id := 0, mention := "adm", joined_at := { instant := 0, zone := 0 }, roles := [1] }

/-- A provisional member (holding the source role 2) with the given id and
join instant. -/
def prov (i : Nat) (j : Int) : Member :=
  { id := i, mention := "m", joined_at := { instant := j, zone := 0 }, roles := [2] }

/-- A guild containing the three configured roles, the admin, and the given
provisional members. -/
def guildOf (ms : List Member) : Guild :=
  { roles := [1, 2, 3], members := adminM :: ms }

/-- Invocation context: the admin invoking in `guildOf ms`. -/
def ctxOf (ms : List Member) : Context :=
  { guild := guildOf ms, author := adminM }

/-- A context whose guild lacks the admin role 1 entirely. -/
def ctxNoAdminRole : Context :=
  { guild := { roles := [2, 3], members := [adminM] }, author := adminM }

/-- A clock whose every `now()` evaluation returns the same instant `c`. -/
def clockConst (c : Int) : Nat → Int := fun _ => c

/-- A clock that advances one second between successive `now()`
evaluations, starting at instant 5. -/
def clockDrift : Nat → Int := fun i => 5 + (i : Int)

/-! ## Helper lemmas -/

theorem gather_fst (rs : List (List Event × PyResult)) :
    (gather rs).1 = (rs.map Prod.fst).flatten := rfl

theorem gather_ok_iff (rs : List (List Event × PyResult)) :
    (gather rs).2 = PyResult.ok ↔ ∀ r ∈ rs, r.2 = PyResult.ok := by
  induction rs with
  | nil => simp [gather]
  | cons r rs ih =>
      simp only [gather, List.findSome?_cons] at *
      cases h : r.2 with
      | ok => simpa [h] using ih
      | raised e => simp [h]

theorem check_roles_and_channel_iff (cfg : Config) (bot : BotClient) (ctx : Context) :
    check_roles_and_channel cfg bot ctx = true ↔
      (∃ o, ctx.guild.get_role cfg.OLD_ROLE_ID = some o)
      ∧ (∃ n, ctx.guild.get_role cfg.NEW_ROLE_ID = some n)
      ∧ (∃ ch, bot.get_channel cfg.CHANNEL_ID = some ch) := by
  simp [check_roles_and_channel, Option.isSome_iff_exists, and_assoc]

theorem eligible_members_const_eq_filter (cfg : Config) (now : Int)
    (ms : List Member) (T : Int) (i : Nat) :
    eligible_members cfg (fun _ => now) ms T i =
      ms.filter (fun m => check_join_time cfg now m T) := by
  induction ms generalizing i with
  | nil => rfl
  | cons x xs ih =>
      simp only [eligible_members, List.filter_cons]
      by_cases h : check_join_time cfg now x T = true
      · simp [h, ih]
      · simp [h, ih]

theorem mem_eligible_members_const (cfg : Config) (now : Int) (ms : List Member)
    (T : Int) (i : Nat) (m : Member) :
    m ∈ eligible_members cfg (fun _ => now) ms T i ↔
      m ∈ ms ∧ check_join_time cfg now m T = true := by
  rw [eligible_members_const_eq_filter, List.mem_filter]

theorem eligible_members_all (cfg : Config) (clock : Nat → Int) (ms : List Member)
    (T : Int) (i : Nat)
    (h : ∀ m ∈ ms, ∀ j, check_join_time cfg (clock j) m T = true) :
    eligible_members cfg clock ms T i = ms := by
  induction ms generalizing i with
  | nil => rfl
  | cons x xs ih =>
      have hx := h x (List.mem_cons_self x xs) i
      simp only [eligible_members, hx, if_true]
      exact congrArg (x :: ·) (ih (i + 1) (fun m hm j => h m (List.mem_cons_of_mem x hm) j))

theorem addRole_mem_change_trace (perms : Perms) (m : Member) (o n : RoleId)
    (ch : ChannelId) (h1 : perms.canRemove m.id o = true)
    (h2 : perms.canAdd m.id n = true) :
    Event.addRole m.id n ∈ (change_role_and_send_message perms m o n ch).1 := by
  by_cases h3 : perms.canSend ch = true <;>
    simp [change_role_and_send_message, h1, h2, h3]

theorem handle_command_fanout (cfg : Config) (bot : BotClient) (perms : Perms)
    (clock : Nat → Int) (ctx : Context) (T : Int) (o n : RoleId) (ch : ChannelId)
    (hadmin : check_admin_role cfg ctx = true)
    (ho : ctx.guild.get_role cfg.OLD_ROLE_ID = some o)
    (hn : ctx.guild.get_role cfg.NEW_ROLE_ID = some n)
    (hc : bot.get_channel cfg.CHANNEL_ID = some ch)
    (hne : eligible_members cfg clock (get_members_with_old_role cfg ctx.guild) T 0 ≠ []) :
    handle_command cfg bot perms clock ctx T =
      gather ((eligible_members cfg clock (get_members_with_old_role cfg ctx.guild) T 0).map
        (fun m => change_role_and_send_message perms m o n ch)) := by
  have hroles : check_roles_and_channel cfg bot ctx = true :=
    (check_roles_and_channel_iff cfg bot ctx).mpr ⟨⟨o, ho⟩, ⟨n, hn⟩, ⟨ch, hc⟩⟩
  simp [handle_command, hadmin, hroles, ho, hn, hc, List.isEmpty_iff, hne]

/-! ## Claim theorems -/

/-- Claim C3: `check_join_time` returns true iff `now` minus the member's
join instant strictly exceeds the threshold `T`; a member joined exactly at
`now - T` is not eligible, and a member joined at `now - T - 1` is. -/
theorem C3_eligibility_strict_boundary (cfg : Config) (T now : Int) (m : Member) :
    (check_join_time cfg now m T = true ↔ now - m.joined_at.instant > T)
    ∧ (m.joined_at.instant = now - T → check_join_time cfg now m T = false)
    ∧ (m.joined_at.instant = now - T - 1 → check_join_time cfg now m T = true) := by
  refine ⟨?_, ?_, ?_⟩
  · simp [check_join_time, AwareTime.astimezone, datetime_now,
      AwareTime.sub_total_seconds]
  · intro h
    simp only [check_join_time, AwareTime.astimezone, datetime_now,
      AwareTime.sub_total_seconds, gt_iff_lt, decide_eq_false_iff_not, not_lt]
    omega
  · intro h
    simp only [check_join_time, AwareTime.astimezone, datetime_now,
      AwareTime.sub_total_seconds, gt_iff_lt, decide_eq_true_eq]
    omega

/-- Witness for C3 at the concrete boundary: threshold 30, `now = 100`,
join instants 70 (`now - T`, ineligible) and 69 (`now - T - 1`, eligible). -/
theorem C3_eligibility_strict_boundary_witness :
    check_join_time cfgM 100 (prov 7 70) 30 = false
    ∧ check_join_time cfgM 100 (prov 7 69) 30 = true :=
  ⟨(C3_eligibility_strict_boundary cfgM 30 100 (prov 7 70)).2.1 (by decide),
   (C3_eligibility_strict_boundary cfgM 30 100 (prov 7 69)).2.2 (by decide)⟩

/-- Claim C4: `check_admin_role` returns true iff the configured admin role
resolves in the guild and the author's role set contains it; when the admin
role does not resolve the result is false, not an error.  The function is
pure in the embedding, matching the source's side-effect-free reads. -/
theorem C4_admin_check_iff (cfg : Config) (ctx : Context) :
    (check_admin_role cfg ctx = true ↔
       ∃ r, ctx.guild.get_role cfg.ADMIN_ROLE_ID = some r ∧ r ∈ ctx.author.roles)
    ∧ (ctx.guild.get_role cfg.ADMIN_ROLE_ID = none →
       check_admin_role cfg ctx = false) := by
  constructor
  · unfold check_admin_role
    cases h : ctx.guild.get_role cfg.ADMIN_ROLE_ID with
    | none => simp
    | some r => simp [h]
  · intro h
    unfold check_admin_role
    rw [h]

/-- Witness for C4: in `cfgM`'s guild the admin (role 1 held) passes the
check, and in a guild without role 1 the check is false, not an error. -/
theorem C4_admin_check_iff_witness :
    check_admin_role cfgM (ctxOf []) = true
    ∧ check_admin_role cfgM ctxNoAdminRole = false :=
  ⟨(C4_admin_check_iff cfgM (ctxOf [])).1.mpr ⟨1, by decide, by decide⟩,
   (C4_admin_check_iff cfgM ctxNoAdminRole).2 (by decide)⟩

/-- Claim C5: in `change_role_and_send_message`, the target role is added
only after the source role has been removed (the remove event is at trace
position 0 and the add event at position 1 whenever the add occurs), and a
`Forbidden` on the remove step prevents the add step from running. -/
theorem C5_remove_before_add (perms : Perms) (m : Member) (o n : RoleId)
    (ch : ChannelId) :
    (Event.addRole m.id n ∈ (change_role_and_send_message perms m o n ch).1 →
       (change_role_and_send_message perms m o n ch).1.get? 0 =
           some (Event.removeRole m.id o)
       ∧ (change_role_and_send_message perms m o n ch).1.get? 1 =
           some (Event.addRole m.id n))
    ∧ (perms.canRemove m.id o = false →
       Event.addRole m.id n ∉ (change_role_and_send_message perms m o n ch).1) := by
  by_cases h1 : perms.canRemove m.id o = true
  · by_cases h2 : perms.canAdd m.id n = true
    · by_cases h3 : perms.canSend ch = true <;>
        simp [change_role_and_send_message, h1, h2, h3]
    · simp [change_role_and_send_message, h1, h2]
  · simp only [Bool.not_eq_true] at h1
    simp [change_role_and_send_message, h1]

/-- Witness for C5: with all permissions granted the add event follows the
remove event, and with removal forbidden no add event occurs. -/
theorem C5_remove_before_add_witness :
    ((change_role_and_send_message permsAll (prov 7 0) 2 3 4).1.get? 0 =
        some (Event.removeRole 7 2)
     ∧ (change_role_and_send_message permsAll (prov 7 0) 2 3 4).1.get? 1 =
        some (Event.addRole 7 3))
    ∧ Event.addRole 7 3 ∉ (change_role_and_send_message permsNoRemove (prov 7 0) 2 3 4).1 :=
  ⟨(C5_remove_before_add permsAll (prov 7 0) 2 3 4).1 (by decide),
   (C5_remove_before_add permsNoRemove (prov 7 0) 2 3 4).2 (by decide)⟩

/-- Claim C8: the two command entry points `C` and `c` are behaviorally
identical: for every invocation context and every optional threshold
argument (including the default), both delegate to `handle_command` with
the same arguments and produce the same trace and result. -/
theorem C8_entry_points_identical (cfg : Config) (bot : BotClient)
    (perms : Perms) (clock : Nat → Int) (ctx : Context)
    (threshold : Option Int) :
    C_command cfg bot perms clock ctx threshold =
      c_command cfg bot perms clock ctx threshold := rfl

/-- Claim C9: the eligibility check is independent of the configured
TIMEZONE: changing only `TIMEZONE` never changes `check_join_time`, because
`astimezone` preserves the instant and only the instant difference in
seconds is compared. -/
theorem C9_timezone_independent (cfg : Config) (tz : Nat) (now : Int)
    (m : Member) (T : Int) :
    check_join_time { cfg with TIMEZONE := tz } now m T =
      check_join_time cfg now m T := rfl

/-- Claim C1 counterexample: with member 1's role removal forbidden and
member 2 unrestricted, member 2's promotion still runs to completion, but
the `Forbidden` is not confined to a per-member failure outcome: it is
re-raised and propagates out of `handle_command`, whose result is the
exception rather than a normal return. -/
theorem C1_counterexample :
    (handle_command cfgM botM permsDeny1 (clockConst 1000)
        (ctxOf [prov 1 0, prov 2 0]) 10).2 = PyResult.raised PyExc.Forbidden
    ∧ Event.addRole 2 3 ∈ (handle_command cfgM botM permsDeny1 (clockConst 1000)
        (ctxOf [prov 1 0, prov 2 0]) 10).1
    ∧ Event.addRole 1 3 ∉ (handle_command cfgM botM permsDeny1 (clockConst 1000)
        (ctxOf [prov 1 0, prov 2 0]) 10).1 := by
  decide

/-- Claim C1 (amended): a `Forbidden` during one member's promotion is
caught, logged and re-raised; since `asyncio.gather` is called without
`return_exceptions`, sibling tasks are not cancelled — the invocation's
trace is exactly the concatenation of every eligible member's own task
trace — but the invocation returns normally only when every member's task
succeeded: the first failure propagates out of `handle_command` instead of
being reported as that member's failure outcome. -/
theorem C1_fanout_isolation_amended (cfg : Config) (bot : BotClient)
    (perms : Perms) (clock : Nat → Int) (ctx : Context) (T : Int)
    (o n : RoleId) (ch : ChannelId)
    (hadmin : check_admin_role cfg ctx = true)
    (ho : ctx.guild.get_role cfg.OLD_ROLE_ID = some o)
    (hn : ctx.guild.get_role cfg.NEW_ROLE_ID = some n)
    (hc : bot.get_channel cfg.CHANNEL_ID = some ch)
    (hne : eligible_members cfg clock (get_members_with_old_role cfg ctx.guild) T 0 ≠ []) :
    (handle_command cfg bot perms clock ctx T).1 =
      (((eligible_members cfg clock (get_members_with_old_role cfg ctx.guild) T 0).map
        (fun m => change_role_and_send_message perms m o n ch)).map Prod.fst).flatten
    ∧ ((handle_command cfg bot perms clock ctx T).2 = PyResult.ok ↔
        ∀ m ∈ eligible_members cfg clock (get_members_with_old_role cfg ctx.guild) T 0,
          (change_role_and_send_message perms m o n ch).2 = PyResult.ok) := by
  rw [handle_command_fanout cfg bot perms clock ctx T o n ch hadmin ho hn hc hne]
  refine ⟨gather_fst _, ?_⟩
  rw [gather_ok_iff]
  constructor
  · intro h m hm
    exact h _ (List.mem_map_of_mem _ hm)
  · intro h r hr
    rcases List.mem_map.mp hr with ⟨m, hm, rfl⟩
    exact h m hm

/-- Witness for the amended C1: in the two-member scenario the result of
`handle_command` is not a normal return, because member 1's task raised. -/
theorem C1_fanout_isolation_amended_witness :
    (handle_command cfgM botM permsDeny1 (clockConst 1000)
        (ctxOf [prov 1 0, prov 2 0]) 10).2 ≠ PyResult.ok :=
  fun hok =>
    absurd
      ((C1_fanout_isolation_amended cfgM botM permsDeny1 (clockConst 1000)
          (ctxOf [prov 1 0, prov 2 0]) 10 2 3 4 (by decide) (by decide)
          (by decide) (by decide) (by decide)).2.mp hok (prov 1 0) (by decide))
      (by decide)

/-- Claim C2 counterexample: `now` is evaluated inside `check_join_time`,
once per candidate; with the clock advancing one second between the two
checks, two members with identical join timestamps receive different
eligibility results in the same invocation — member 2 is promoted and
member 1 is not. -/
theorem C2_counterexample :
    (prov 1 0).joined_at = (prov 2 0).joined_at
    ∧ eligible_members cfgM clockDrift [prov 1 0, prov 2 0] 5 0 = [prov 2 0]
    ∧ Event.addRole 2 3 ∈ (handle_command cfgM botM permsAll clockDrift
        (ctxOf [prov 1 0, prov 2 0]) 5).1
    ∧ Event.addRole 1 3 ∉ (handle_command cfgM botM permsAll clockDrift
        (ctxOf [prov 1 0, prov 2 0]) 5).1 := by
  decide

/-- Claim C2 (amended): each candidate's check evaluates its own `now`;
when every per-candidate `now` evaluation of the invocation returns the
same instant, two candidates with identical join timestamps receive
identical eligibility results regardless of the order in which they are
checked. -/
theorem C2_same_join_same_result_const_clock (cfg : Config) (now T : Int)
    (ms : List Member) (m1 m2 : Member) (hj : m1.joined_at = m2.joined_at) :
    check_join_time cfg now m1 T = check_join_time cfg now m2 T
    ∧ (m1 ∈ ms → m2 ∈ ms →
        (m1 ∈ eligible_members cfg (clockConst now) ms T 0 ↔
         m2 ∈ eligible_members cfg (clockConst now) ms T 0)) := by
  have hch : check_join_time cfg now m1 T = check_join_time cfg now m2 T := by
    simp [check_join_time, AwareTime.astimezone, datetime_now,
      AwareTime.sub_total_seconds, hj]
  refine ⟨hch, fun h1 h2 => ?_⟩
  rw [show clockConst now = fun _ => now from rfl]
  rw [mem_eligible_members_const, mem_eligible_members_const]
  simp [h1, h2, hch]

/-- Witness for the amended C2: with one fixed instant 5 for both checks,
the two identically-joined members get the same eligibility and the same
membership in the eligible set. -/
theorem C2_same_join_same_result_const_clock_witness :
    check_join_time cfgM 5 (prov 1 0) 5 = check_join_time cfgM 5 (prov 2 0) 5
    ∧ (prov 1 0 ∈ eligible_members cfgM (clockConst 5) [prov 1 0, prov 2 0] 5 0 ↔
       prov 2 0 ∈ eligible_members cfgM (clockConst 5) [prov 1 0, prov 2 0] 5 0) :=
  have h := C2_same_join_same_result_const_clock cfgM 5 5 [prov 1 0, prov 2 0]
    (prov 1 0) (prov 2 0) (by decide)
  ⟨h.1, h.2 (by decide) (by decide)⟩

/-- Claim C6: every invocation that terminates at a gate — authorization
denied, source role / target role / announcement channel unresolved, or
empty eligible set — sends exactly one reply to the invoker, performs no
role mutations and no congratulatory channel deliveries, and returns
normally. -/
theorem C6_gates_single_reply_no_state_change (cfg : Config) (bot : BotClient)
    (perms : Perms) (clock : Nat → Int) (ctx : Context) (T : Int)
    (h : check_admin_role cfg ctx = false
       ∨ check_roles_and_channel cfg bot ctx = false
       ∨ eligible_members cfg clock (get_members_with_old_role cfg ctx.guild) T 0 = []) :
    ((handle_command cfg bot perms clock ctx T).1.filter Event.isReply).length = 1
    ∧ (handle_command cfg bot perms clock ctx T).1.filter Event.isMutation = []
    ∧ (handle_command cfg bot perms clock ctx T).1.filter Event.isChannelMsg = []
    ∧ (handle_command cfg bot perms clock ctx T).2 = PyResult.ok := by
  by_cases hadmin : check_admin_role cfg ctx = true
  · by_cases hroles : check_roles_and_channel cfg bot ctx = true
    · have helig : eligible_members cfg clock (get_members_with_old_role cfg ctx.guild) T 0 = [] := by
        rcases h with h | h | h
        · simp [hadmin] at h
        · simp [hroles] at h
        · exact h
      rcases (check_roles_and_channel_iff cfg bot ctx).mp hroles with
        ⟨⟨o, ho⟩, ⟨n, hn⟩, ⟨ch, hc⟩⟩
      simp [handle_command, hadmin, hroles, ho, hn, hc, helig,
        Event.isReply, Event.isMutation, Event.isChannelMsg, List.filter]
    · have hr : check_roles_and_channel cfg bot ctx = false := by
        cases hx : check_roles_and_channel cfg bot ctx
        · rfl
        · exact absurd hx hroles
      simp [handle_command, hadmin, hr,
        Event.isReply, Event.isMutation, Event.isChannelMsg, List.filter]
  · have ha : check_admin_role cfg ctx = false := by
      cases hx : check_admin_role cfg ctx
      · rfl
      · exact absurd hx hadmin
    simp [handle_command, ha,
      Event.isReply, Event.isMutation, Event.isChannelMsg, List.filter]

/-- Witness for C6 at the authorization gate: a guild without the admin
role yields one reply, no mutations, no channel messages, normal return. -/
theorem C6_gates_single_reply_no_state_change_witness :
    ((handle_command cfgM botM permsAll (clockConst 1000) ctxNoAdminRole 10).1.filter
        Event.isReply).length = 1
    ∧ (handle_command cfgM botM permsAll (clockConst 1000) ctxNoAdminRole 10).1.filter
        Event.isMutation = []
    ∧ (handle_command cfgM botM permsAll (clockConst 1000) ctxNoAdminRole 10).1.filter
        Event.isChannelMsg = []
    ∧ (handle_command cfgM botM permsAll (clockConst 1000) ctxNoAdminRole 10).2 = PyResult.ok :=
  C6_gates_single_reply_no_state_change cfgM botM permsAll (clockConst 1000)
    ctxNoAdminRole 10 (Or.inl (by decide))

/-- Claim C7 counterexample: in the scenario with three source-role members
of join ages 10, 2 and 40 days and threshold 7 days, the command sends no
reply to the invoker at all — in particular no reply indicating 2
successes. -/
theorem C7_counterexample :
    (handle_command cfgM botM permsAll (clockConst 10000000)
        (ctxOf [prov 11 9136000, prov 12 9827200, prov 13 6544000]) 604800).1.filter
        Event.isReply = [] := by
  decide

/-- Claim C7 (amended): in that scenario exactly the two members of join
ages 10 and 40 days receive the target role, two congratulatory channel
messages are delivered, the invocation returns normally, and no reply (in
particular no success count) is sent to the invoker. -/
theorem C7_scenario_exactly_two_promoted :
    (handle_command cfgM botM permsAll (clockConst 10000000)
        (ctxOf [prov 11 9136000, prov 12 9827200, prov 13 6544000]) 604800).1.filter
        Event.isAdd = [Event.addRole 11 3, Event.addRole 13 3]
    ∧ ((handle_command cfgM botM permsAll (clockConst 10000000)
        (ctxOf [prov 11 9136000, prov 12 9827200, prov 13 6544000]) 604800).1.filter
        Event.isChannelMsg).length = 2
    ∧ (handle_command cfgM botM permsAll (clockConst 10000000)
        (ctxOf [prov 11 9136000, prov 12 9827200, prov 13 6544000]) 604800).2 = PyResult.ok := by
  decide

/-- Claim C10: the threshold override is accepted without validation: for
any threshold `T ≤ 0`, every member joined strictly before the reference
instant passes `check_join_time`; consequently the eligible set is the
entire source-role membership, and — the bot's permissions allowing — every
member currently holding the source role receives the target role during
the invocation. -/
theorem C10_nonpositive_threshold_promotes_all (cfg : Config) (bot : BotClient)
    (perms : Perms) (clock : Nat → Int) (ctx : Context) (T now : Int)
    (o n : RoleId) (ch : ChannelId)
    (hT : T ≤ 0)
    (hclock : ∀ j, clock j = now)
    (hjoin : ∀ m ∈ get_members_with_old_role cfg ctx.guild, m.joined_at.instant < now)
    (hadmin : check_admin_role cfg ctx = true)
    (ho : ctx.guild.get_role cfg.OLD_ROLE_ID = some o)
    (hn : ctx.guild.get_role cfg.NEW_ROLE_ID = some n)
    (hc : bot.get_channel cfg.CHANNEL_ID = some ch)
    (hrm : ∀ m ∈ get_members_with_old_role cfg ctx.guild, perms.canRemove m.id o = true)
    (hadd : ∀ m ∈ get_members_with_old_role cfg ctx.guild, perms.canAdd m.id n = true) :
    (∀ (mm : Member), mm.joined_at.instant < now → check_join_time cfg now mm T = true)
    ∧ eligible_members cfg clock (get_members_with_old_role cfg ctx.guild) T 0 =
        get_members_with_old_role cfg ctx.guild
    ∧ ∀ m ∈ get_members_with_old_role cfg ctx.guild,
        Event.addRole m.id n ∈ (handle_command cfg bot perms clock ctx T).1 := by
  have hcheck : ∀ (mm : Member), mm.joined_at.instant < now →
      check_join_time cfg now mm T = true := by
    intro mm hmm
    simp only [check_join_time, AwareTime.astimezone, datetime_now,
      AwareTime.sub_total_seconds, gt_iff_lt, decide_eq_true_eq]
    omega
  have helig : eligible_members cfg clock (get_members_with_old_role cfg ctx.guild) T 0 =
      get_members_with_old_role cfg ctx.guild := by
    apply eligible_members_all
    intro m hm j
    rw [hclock j]
    exact hcheck m (hjoin m hm)
  refine ⟨hcheck, helig, ?_⟩
  intro m hm
  cases hms : get_members_with_old_role cfg ctx.guild with
  | nil => rw [hms] at hm; cases hm
  | cons x xs =>
      have hne : eligible_members cfg clock (get_members_with_old_role cfg ctx.guild) T 0 ≠ [] := by
        rw [helig, hms]
        exact List.cons_ne_nil x xs
      rw [handle_command_fanout cfg bot perms clock ctx T o n ch hadmin ho hn hc hne,
        gather_fst]
      apply List.mem_flatten.mpr
      refine ⟨(change_role_and_send_message perms m o n ch).1, ?_, ?_⟩
      · rw [helig]
        exact List.mem_map_of_mem Prod.fst
          (List.mem_map_of_mem (fun m => change_role_and_send_message perms m o n ch) hm)
      · exact addRole_mem_change_trace perms m o n ch (hrm m hm) (hadd m hm)

/-- Witness for C10: with threshold 0 and two source-role members joined
before instant 1000, the eligible set is all of them and both receive the
target role. -/
theorem C10_nonpositive_threshold_promotes_all_witness :
    eligible_members cfgM (clockConst 1000)
        (get_members_with_old_role cfgM (ctxOf [prov 1 10, prov 2 999]).guild) 0 0 =
      get_members_with_old_role cfgM (ctxOf [prov 1 10, prov 2 999]).guild
    ∧ Event.addRole 1 3 ∈ (handle_command cfgM botM permsAll (clockConst 1000)
        (ctxOf [prov 1 10, prov 2 999]) 0).1
    ∧ Event.addRole 2 3 ∈ (handle_command cfgM botM permsAll (clockConst 1000)
        (ctxOf [prov 1 10, prov 2 999]) 0).1 :=
  have h := C10_nonpositive_threshold_promotes_all cfgM botM permsAll (clockConst 1000)
    (ctxOf [prov 1 10, prov 2 999]) 0 1000 2 3 4 (by decide) (fun j => rfl)
    (by decide) (by decide) (by decide) (by decide) (by decide) (by decide) (by decide)
  ⟨h.2.1, h.2.2 (prov 1 10) (by decide), h.2.2 (prov 2 999) (by decide)⟩
